import Mathlib

/-!
Shallow embedding of the alexandria-dx11 window / render-surface core
(`src/window.rs`, `src/graphics.rs`, `src/viewport.rs`), with theorems
settling the specification claims about the resize state machine, the
raw keyboard scan-code decoder, the render-target lifecycle and the
viewport registry.
-/

namespace AlexandriaDx11

set_option maxHeartbeats 2000000

/-- Logical keys (`alexandria_common::Key`), restricted to the variants the
decoder in `window.rs` can produce.  The Rust digit names `_1`…`_0` are
rendered `D1`…`D0`. -/
inductive Key where
  | Escape | D1 | D2 | D3 | D4 | D5 | D6 | D7 | D8 | D9 | D0
  | Dash | Equal | Backspace | Tab
  | Q | W | E | R | T | Y | U | I | O | P
  | LeftSquareBracket | RightSquareBracket | Enter | LeftControl
  | A | S | D | F | G | H | J | K | L
  | SemiColon | Quote | Tilde | LeftShift | BackSlash
  | Z | X | C | V | B | N | M
  | Comma | Period | ForwardSlash | RightShift
  | NumpadMultiply | LeftAlt | Space | CapsLock
  | F1 | F2 | F3 | F4 | F5 | F6 | F7 | F8 | F9 | F10
  | ScrollLock
  | Numpad7 | Numpad8 | Numpad9 | NumpadSubtract
  | Numpad4 | Numpad5 | Numpad6 | NumpadAdd
  | Numpad1 | Numpad2 | Numpad3 | Numpad0 | NumpadDecimal
  | F11 | F12 | Windows | Menu
  | NumpadEnter | Pause | RightControl | NumpadDivide | PrintScreen
  | RightAlt | Home | UpArrow | PageUp | LeftArrow | RightArrow
  | End | DownArrow | PageDown | Insert | Delete
  deriving DecidableEq, Repr

/-- The direct scan-code table `key::CODES` from `window.rs`, indexed by the
low 7 bits of the make code.  Entry 0x45 (numeric lock) is `none` because its
scan code conflicts with the Pause key. -/
def CODES : List (Option Key) := [
  none,
  some .Escape, some .D1, some .D2, some .D3, some .D4, some .D5,
  some .D6, some .D7, some .D8, some .D9, some .D0,
  some .Dash, some .Equal, some .Backspace, some .Tab,
  some .Q, some .W, some .E, some .R, some .T, some .Y, some .U,
  some .I, some .O, some .P,
  some .LeftSquareBracket, some .RightSquareBracket, some .Enter,
  some .LeftControl,
  some .A, some .S, some .D, some .F, some .G, some .H, some .J,
  some .K, some .L,
  some .SemiColon, some .Quote, some .Tilde, some .LeftShift,
  some .BackSlash,
  some .Z, some .X, some .C, some .V, some .B, some .N, some .M,
  some .Comma, some .Period, some .ForwardSlash, some .RightShift,
  some .NumpadMultiply, some .LeftAlt, some .Space, some .CapsLock,
  some .F1, some .F2, some .F3, some .F4, some .F5, some .F6,
  some .F7, some .F8, some .F9, some .F10,
  none,
  some .ScrollLock,
  some .Numpad7, some .Numpad8, some .Numpad9, some .NumpadSubtract,
  some .Numpad4, some .Numpad5, some .Numpad6, some .NumpadAdd,
  some .Numpad1, some .Numpad2, some .Numpad3, some .Numpad0,
  some .NumpadDecimal,
  none, none, none,
  some .F11, some .F12,
  none, none,
  some .Windows,
  none,
  some .Menu]

/-- The fields of `win32::RawKeyboard` that `parse_vkey` inspects: the make
code (a 16-bit scan code) and the E0/E1 extended flags. -/
structure RawKeyboard where
  make_code : Nat
  e0 : Bool
  e1 : Bool
  deriving DecidableEq, Repr

/-- `parse_vkey` from `window.rs`: masks the make code to its low 7 bits,
rejects codes past the table bound, resolves the extended-flag override
codes by inspecting `e0` (and `e1` for 0x1D), and otherwise reads the
direct table. -/
def parse_vkey (key : RawKeyboard) : Option Key :=
  let key_code := key.make_code % 128
  if key_code ≥ CODES.length then
    none
  else
    match key_code with
    | 0x1C => some (match key.e0 with
        | false => Key.Enter
        | true => Key.NumpadEnter)
    | 0x1D => some (match key.e0 with
        | false => match key.e1 with
          | true => Key.Pause
          | false => Key.LeftControl
        | true => Key.RightControl)
    | 0x2A => match key.e0 with
        | false => some Key.LeftShift
        | true => none
    | 0x35 => some (match key.e0 with
        | false => Key.ForwardSlash
        | true => Key.NumpadDivide)
    | 0x37 => some (match key.e0 with
        | false => Key.NumpadMultiply
        | true => Key.PrintScreen)
    | 0x38 => some (match key.e0 with
        | false => Key.LeftAlt
        | true => Key.RightAlt)
    | 0x47 => some (match key.e0 with
        | false => Key.Numpad7
        | true => Key.Home)
    | 0x48 => some (match key.e0 with
        | false => Key.Numpad8
        | true => Key.UpArrow)
    | 0x49 => some (match key.e0 with
        | false => Key.Numpad9
        | true => Key.PageUp)
    | 0x4B => some (match key.e0 with
        | false => Key.Numpad4
        | true => Key.LeftArrow)
    | 0x4D => some (match key.e0 with
        | false => Key.Numpad6
        | true => Key.RightArrow)
    | 0x4F => some (match key.e0 with
        | false => Key.Numpad1
        | true => Key.End)
    | 0x50 => some (match key.e0 with
        | false => Key.Numpad2
        | true => Key.DownArrow)
    | 0x51 => some (match key.e0 with
        | false => Key.Numpad3
        | true => Key.PageDown)
    | 0x52 => some (match key.e0 with
        | false => Key.Numpad0
        | true => Key.Insert)
    | 0x53 => some (match key.e0 with
        | false => Key.NumpadDecimal
        | true => Key.Delete)
    | n => CODES.getD n none

/-- The set of scan codes whose meaning `parse_vkey` resolves through the
extended flags: exactly the special match arms above. -/
def OVERRIDE_CODES : List Nat :=
  [0x1C, 0x1D, 0x2A, 0x35, 0x37, 0x38, 0x47, 0x48, 0x49,
   0x4B, 0x4D, 0x4F, 0x50, 0x51, 0x52, 0x53]

example : CODES.length = 94 := by decide
example : parse_vkey ⟨0x48, true, false⟩ = some Key.UpArrow := by decide
example : parse_vkey ⟨0x48, false, false⟩ = some Key.Numpad8 := by decide
example : parse_vkey ⟨0x60, false, false⟩ = none := by decide
example : parse_vkey ⟨0x45, false, false⟩ = none := by decide
example : parse_vkey ⟨0x2A, true, false⟩ = none := by decide

/-! ## Input state

`alexandria_common::Input` is a trait whose implementation lives outside
this repository; `window.rs` only calls `frame_reset`, `key_down`,
`key_up`, `mouse_down`, `mouse_up`, `update_mouse_position` and
`is_mouse_locked` on it. -/

/-- Modelled from the spec: the `InputState` component of
`alexandria_common` (not under `src/`).  It keeps two per-frame transition
sets (keys pressed this frame, keys released this frame), persistent held
sets, and the mouse position; `frame_reset` clears only the transition
sets. -/
structure InputState where
  keys_pressed : List Key
  keys_released : List Key
  keys_held : List Key
  mouse_position : Int × Int
  mouse_locked : Bool
  deriving Repr

/-- Modelled from the spec: `frame_reset` clears only the per-frame
transition sets; held state and mouse position persist. -/
def InputState.frame_reset (i : InputState) : InputState :=
  { i with keys_pressed := [], keys_released := [] }

/-- Modelled from the spec: a key-down edge enters both the pressed-set and
the held-set. -/
def InputState.key_down (i : InputState) (k : Key) : InputState :=
  { i with keys_pressed := k :: i.keys_pressed,
           keys_held := k :: i.keys_held }

/-- Modelled from the spec: a key-up edge enters the released-set and leaves
the held-set. -/
def InputState.key_up (i : InputState) (k : Key) : InputState :=
  { i with keys_released := k :: i.keys_released,
           keys_held := i.keys_held.filter (· ≠ k) }

/-! ## The window controller -/

/-- Calls the window controller issues into the `Graphics` object when a
size change is committed (`Window::update_size`). -/
inductive GAction where
  | resizeSwapChain (width height : Nat)
  | updateViewports (width height : Nat)
  deriving DecidableEq, Repr

/-- The mutable state of `Window<I>` in `window.rs` that the message
handlers touch.  `h_wnd_null` models the `self.h_wnd == null()` guard in
`update_size`; a constructed window has `h_wnd_null = false`. -/
structure WindowState where
  input : InputState
  width : Nat
  height : Nat
  h_wnd_null : Bool
  mouse_center : Int × Int
  update_mouse_center : Bool
  minimized : Bool
  in_size_move : Bool
  window_size_changed : Bool
  deriving Repr

/-- The platform messages `Window::wnd_proc` distinguishes.  Messages that
trigger `update_size` carry the size that `win32::get_window_rect` reports
at that moment (an external input).  `rawInput` carries the decoded
`RawKeyboard` fields and the pressed flag of a `WM_INPUT` message. -/
inductive Msg where
  | sizeMinimized
  | size (width height : Nat)
  | enterSizeMove
  | exitSizeMove (width height : Nat)
  | windowPosChanged
  | rawInput (make_code : Nat) (e0 e1 : Bool) (pressed : Bool)
  | quit
  | other
  deriving DecidableEq, Repr

/-- `Window::update_size`: reads the current window rect (here: passed in),
no-ops when the size is unchanged, otherwise stores the new size, marks
`window_size_changed`, resizes the swap chain and then relays out the
viewports — in that order. -/
def update_size (s : WindowState) (new_width new_height : Nat) :
    WindowState × List GAction :=
  if s.h_wnd_null then (s, [])
  else if new_width = s.width ∧ new_height = s.height then (s, [])
  else
    ({ s with width := new_width, height := new_height,
              window_size_changed := true },
     [GAction.resizeSwapChain new_width new_height,
      GAction.updateViewports new_width new_height])

/-- `Window::wnd_proc`, restricted to the messages that touch the state the
claims are about.  Returns the successor state and the graphics calls
issued while handling the message. -/
def wnd_proc (s : WindowState) (m : Msg) : WindowState × List GAction :=
  match m with
  | .sizeMinimized => ({ s with minimized := true }, [])
  | .size w h =>
      match s.minimized with
      | true => ({ s with minimized := false }, [])
      | false => update_size s w h
  | .enterSizeMove => ({ s with in_size_move := true }, [])
  | .exitSizeMove w h =>
      update_size { s with in_size_move := false } w h
  | .windowPosChanged => ({ s with update_mouse_center := true }, [])
  | .rawInput make_code e0 e1 pressed =>
      match parse_vkey ⟨make_code, e0, e1⟩ with
      | some k =>
          match pressed with
          | true => ({ s with input := s.input.key_down k }, [])
          | false => ({ s with input := s.input.key_up k }, [])
      | none => (s, [])
  | .quit => (s, [])
  | .other => (s, [])

/-- The message-drain loop of `Window::poll_events`: processes the pending
messages in order, stopping with result `false` as soon as a `WM_QUIT`
message is seen (which is not dispatched); all other messages are
dispatched through `wnd_proc`. -/
def poll_loop : WindowState → List Msg → WindowState × List GAction × Bool
  | s, [] => (s, [], true)
  | s, Msg.quit :: _ => (s, [], false)
  | s, m :: rest =>
      ((poll_loop (wnd_proc s m).1 rest).1,
       (wnd_proc s m).2 ++ (poll_loop (wnd_proc s m).1 rest).2.1,
       (poll_loop (wnd_proc s m).1 rest).2.2)

/-- `Window::poll_events`: resets the input transition sets and
`window_size_changed` at entry, then drains the pending message list. -/
def poll_events (s : WindowState) (msgs : List Msg) :
    WindowState × List GAction × Bool :=
  poll_loop
    { s with input := s.input.frame_reset, window_size_changed := false }
    msgs

/-- The window state right after `Window::new` returns (it ends with a call
to `update_mouse_center`, which clears the dirty flag; the cached center
coordinate itself comes from the platform and is irrelevant here). -/
def WindowState.init (width height : Nat) : WindowState where
  input := ⟨[], [], [], (0, 0), false⟩
  width := width
  height := height
  h_wnd_null := false
  mouse_center := (0, 0)
  update_mouse_center := false
  minimized := false
  in_size_move := false
  window_size_changed := false

/-! ## The graphics surface and the viewport registry

The model mirrors `graphics.rs` and `viewport.rs` in the release
configuration: the `#[cfg(debug_assertions)]` info-queue field and its
advisory drain in `end_render` are compiled out there.  View and buffer
objects are represented by the dimensions they were created with; the
GPU-side effect of each device call is recorded as a `DxCall`. -/

/-- `alexandria_common::Vector2` — only stored and passed through here, no
arithmetic is performed on it, so the `f32` components are carried as
exact rationals. -/
structure Vector2 where
  x : Rat
  y : Rat
  deriving DecidableEq, Repr

/-- `win32::D3D11Viewport::new(top_left_x, top_left_y, width, height,
min_depth, max_depth)`. -/
structure D3D11Viewport where
  top_left_x : Rat
  top_left_y : Rat
  width : Rat
  height : Rat
  min_depth : Rat
  max_depth : Rat
  deriving DecidableEq, Repr

/-- The full-window viewport `D3D11Viewport::new(0.0, 0.0, width as f32,
height as f32, 0.0, 1.0)` used at construction and after a resize. -/
def fullWindowViewport (width height : Nat) : D3D11Viewport :=
  ⟨0, 0, (width : Rat), (height : Rat), 0, 1⟩

/-- Calls into the graphics device / swap chain, in the order they are
issued.  `omSetRenderTargets true` binds the current render target and
depth-stencil view; `omSetRenderTargets false` is the unbinding call
`om_set_render_targets(&mut [None], None)`. -/
inductive DxCall where
  | omSetRenderTargets (bound : Bool)
  | releaseRenderTargetView
  | releaseDepthStencilView
  | flush
  | resizeBuffers (buffer_count width height : Nat)
  | createRenderTargetView
  | createDepthStencilBufferAndView (width height : Nat)
  | rsSetViewports (vp : D3D11Viewport)
  | clearRenderTargetView
  | clearDepthStencilView
  | iaSetPrimitiveTopology
  | omSetBlendState
  | present (sync_interval flags : Nat)
  deriving DecidableEq, Repr

/-- A `Viewport` from `viewport.rs`: the stored `D3D11Viewport` rect, the
optional host-supplied resize updater, and the registry key.  The shared
`device_context` handle carries no state of its own and is omitted. -/
structure Viewport where
  viewport : D3D11Viewport
  updater : Option (Vector2 → Vector2 × Vector2)
  key : Nat

/-- `Viewport::new`: builds the `D3D11Viewport` from the top-left corner
and size, with depth range 0..1. -/
def Viewport.new (top_left size : Vector2)
    (updater : Option (Vector2 → Vector2 × Vector2)) (key : Nat) :
    Viewport :=
  ⟨⟨top_left.x, top_left.y, size.x, size.y, 0, 1⟩, updater, key⟩

/-- `Viewport::update`: replaces the stored rect; key and updater are
untouched. -/
def Viewport.update (v : Viewport) (top_left size : Vector2) : Viewport :=
  { v with viewport := ⟨top_left.x, top_left.y, size.x, size.y, 0, 1⟩ }

/-- `NUM_BUFFERS` from `graphics.rs`. -/
def NUM_BUFFERS : Nat := 3

/-- The state of `Graphics` from `graphics.rs` (release configuration).
`render_target_view` and `depth_stencil_view` are `Option`s exactly as in
the Rust struct; `depth_stencil_buffer` is NOT an `Option` there and so is
a plain field here.  Views and buffers are represented by the dimensions
they were created for; the immutable device/state objects are omitted. -/
structure Graphics where
  swap_chain_size : Nat × Nat
  render_target_view : Option (Nat × Nat)
  depth_stencil_buffer : Nat × Nat
  depth_stencil_view : Option (Nat × Nat)
  rendering : Bool
  viewports : List Viewport
  new_viewport_key : Nat
  default_viewport : Nat

/-- The `Graphics` state as `Graphics::new(handle, width, height)` leaves
it: all views freshly created at the window size, no frame in progress,
empty viewport registry. -/
def Graphics.init (width height : Nat) : Graphics where
  swap_chain_size := (width, height)
  render_target_view := some (width, height)
  depth_stencil_buffer := (width, height)
  depth_stencil_view := some (width, height)
  rendering := false
  viewports := []
  new_viewport_key := 0
  default_viewport := 0

/-- `Graphics::resize_swap_chain`, one statement per step: the device call
issued and the `Graphics` state right after it.  Mirrors `graphics.rs`
lines 411–446: unbind targets, release the two views (the swap chain is
kept), flush, resize the swap-chain buffers, recreate the render-target
view, recreate the depth-stencil buffer+view, set the full-window
viewport. -/
def resize_steps (g : Graphics) (width height : Nat) :
    List (DxCall × Graphics) :=
  let g1 := g
  let g2 := { g1 with render_target_view := none }
  let g3 := { g2 with depth_stencil_view := none }
  let g4 := g3
  let g5 := { g4 with swap_chain_size := (width, height) }
  let g6 := { g5 with render_target_view := some (width, height) }
  let g7 := { g6 with depth_stencil_buffer := (width, height),
                      depth_stencil_view := some (width, height) }
  let g8 := g7
  [(DxCall.omSetRenderTargets false, g1),
   (DxCall.releaseRenderTargetView, g2),
   (DxCall.releaseDepthStencilView, g3),
   (DxCall.flush, g4),
   (DxCall.resizeBuffers NUM_BUFFERS width height, g5),
   (DxCall.createRenderTargetView, g6),
   (DxCall.createDepthStencilBufferAndView width height, g7),
   (DxCall.rsSetViewports (fullWindowViewport width height), g8)]

/-- `Graphics::resize_swap_chain` as a whole: the final state and the call
trace. -/
def resize_swap_chain (g : Graphics) (width height : Nat) :
    Graphics × List DxCall :=
  (((resize_steps g width height).map (·.2)).getLastD g,
   (resize_steps g width height).map (·.1))

/-- `Graphics::begin_render`: marks a frame in progress, clears both views,
binds them, sets topology and blend state.  The Rust code unwraps both
views; `none` models that panic when a view is absent. -/
def begin_render (g : Graphics) : Option (Graphics × List DxCall) :=
  match g.render_target_view, g.depth_stencil_view with
  | some _, some _ =>
      some ({ g with rendering := true },
            [DxCall.clearRenderTargetView,
             DxCall.clearDepthStencilView,
             DxCall.omSetRenderTargets true,
             DxCall.iaSetPrimitiveTopology,
             DxCall.omSetBlendState])
  | _, _ => none

/-- `Graphics::end_render` (release configuration, where the
`#[cfg(debug_assertions)]` info-queue drain is compiled out).
`present_ok` is the outcome of the external `IDXGISwapChain::present`
call; the returned `Bool` is `true` when the function returns `Ok(())`.
When presentation fails the `?` operator returns early, before
`self.rendering = false` runs. -/
def end_render (g : Graphics) (present_ok : Bool) :
    Graphics × List DxCall × Bool :=
  if g.rendering then
    if present_ok then
      ({ g with rendering := false },
       [DxCall.omSetRenderTargets false, DxCall.present 1 0], true)
    else
      (g, [DxCall.omSetRenderTargets false, DxCall.present 1 0], false)
  else
    (g, [], true)

/-- `Graphics::create_viewport`: hands out the current `new_viewport_key`,
increments it, and pushes the new viewport at the end of the vector. -/
def create_viewport (g : Graphics) (top_left size : Vector2)
    (updater : Option (Vector2 → Vector2 × Vector2)) : Graphics × Nat :=
  let key := g.new_viewport_key
  ({ g with new_viewport_key := key + 1,
            viewports := g.viewports ++ [Viewport.new top_left size updater key] },
   key)

/-- `Graphics::get_viewport`: linear scan for the first viewport with the
given key. -/
def get_viewport (g : Graphics) (viewport_key : Nat) : Option Viewport :=
  g.viewports.find? (fun v => v.key = viewport_key)

/-- `Graphics::remove_viewport`: `Vec::retain` keeps every viewport whose
key differs. -/
def remove_viewport (g : Graphics) (viewport_key : Nat) : Graphics :=
  { g with viewports := g.viewports.filter (fun v => v.key ≠ viewport_key) }

/-- `Graphics::update_viewports` (the relayout on a committed resize): each
viewport that has an updater receives the new window size and its rect is
replaced by the result; viewports without an updater are untouched. -/
def update_viewports (g : Graphics) (new_size : Vector2) : Graphics :=
  { g with viewports := g.viewports.map (fun v =>
      match v.updater with
      | some u =>
          let (top_left, size) := u new_size
          v.update top_left size
      | none => v) }

/-- `Graphics::set_default_viewport`. -/
def set_default_viewport (g : Graphics) (viewport : Nat) : Graphics :=
  { g with default_viewport := viewport }

/-- Replaces the first viewport carrying the key — `get_viewport` hands a
mutable reference to the first match, which `Viewport::update` mutates in
place. -/
def update_first : List Viewport → Nat → Vector2 → Vector2 → List Viewport
  | [], _, _, _ => []
  | v :: rest, k, tl, sz =>
      if v.key = k then v.update tl sz :: rest
      else v :: update_first rest k tl sz

/-- `Window::set_active_viewport`: `get_viewport(key).map(set_active)` —
on a hit, `Viewport::set_active` binds the stored rect to the pipeline;
on a miss nothing happens at all. -/
def window_set_active_viewport (g : Graphics) (viewport : Nat) :
    Graphics × List DxCall :=
  match get_viewport g viewport with
  | some v => (g, [DxCall.rsSetViewports v.viewport])
  | none => (g, [])

/-- `Window::update_viewport`: `get_viewport(key).unwrap().update(...)` —
`none` models the `unwrap` panic on a missing key. -/
def window_update_viewport (g : Graphics) (viewport : Nat)
    (top_left size : Vector2) : Option Graphics :=
  match get_viewport g viewport with
  | some _ => some { g with viewports := update_first g.viewports viewport top_left size }
  | none => none

/-! ## Auxiliary notions used by the statements -/

/-- Is this graphics call a swap-chain resize? -/
def GAction.isResize : GAction → Bool
  | .resizeSwapChain _ _ => true
  | _ => false

/-- Messages whose handler can commit a size change (reach
`update_size`). -/
def Msg.commitsSize : Msg → Bool
  | .size _ _ => true
  | .exitSizeMove _ _ => true
  | _ => false

/-- Messages that neither touch the resize state machine nor end the
message loop: window moves, raw keyboard input, and messages the handler
passes to `def_window_proc`. -/
def Msg.isGestureNeutral : Msg → Bool
  | .windowPosChanged => true
  | .rawInput _ _ _ _ => true
  | .other => true
  | _ => false

/-- Dispatching a list of messages through `wnd_proc` in order,
accumulating the graphics calls (the body of the message pump, without
the quit check). -/
def dispatch_msgs : WindowState → List Msg → WindowState × List GAction
  | s, [] => (s, [])
  | s, m :: rest =>
      ((dispatch_msgs (wnd_proc s m).1 rest).1,
       (wnd_proc s m).2 ++ (dispatch_msgs (wnd_proc s m).1 rest).2)

/-- The viewport-registry invariant `Graphics` maintains: every stored key
was handed out by a past `create_viewport`, hence is below the allocation
counter. -/
def RegInv (g : Graphics) : Prop :=
  ∀ v ∈ g.viewports, v.key < g.new_viewport_key

/-- The registry operations the host can perform between frames, used to
quantify over "anything the host does later". -/
inductive RegOp where
  | create (top_left size : Vector2)
      (updater : Option (Vector2 → Vector2 × Vector2))
  | remove (key : Nat)
  | update (key : Nat) (top_left size : Vector2)
  | relayout (new_size : Vector2)
  | setDefault (key : Nat)
  | setActive (key : Nat)

/-- Interpreting one registry operation on the graphics state.  A
`RegOp.update` on a missing key panics in the Rust code; the panicking run
is modelled as leaving the state unchanged (no state survives a panic, so
no later lookup can observe a reused key through it either way). -/
def apply_op (g : Graphics) : RegOp → Graphics
  | .create tl sz u => (create_viewport g tl sz u).1
  | .remove k => remove_viewport g k
  | .update k tl sz => (window_update_viewport g k tl sz).getD g
  | .relayout sz => update_viewports g sz
  | .setDefault k => set_default_viewport g k
  | .setActive k => (window_set_active_viewport g k).1

/-- Interpreting a whole operation list, left to right. -/
def apply_ops (g : Graphics) (ops : List RegOp) : Graphics :=
  ops.foldl apply_op g

/-! ## Claim C5 — totality of the key decoder -/

/-- C5: the key decoder is stateless and total: it is a pure function of
the raw keyboard fields, every scan code (any value, with any extended-flag
combination) yields `some` logical key or `none` and never panics (the
table access is guarded by the bound check), scan codes whose low 7 bits
index at or past the table's bound yield `none`, and the numeric-lock
table entry (0x45) is `none`. -/
theorem C5_key_decoder_total :
    ∀ (code : Nat) (e0 e1 : Bool),
      (CODES.length ≤ code % 128 → parse_vkey ⟨code, e0, e1⟩ = none) ∧
      parse_vkey ⟨0x45, e0, e1⟩ = none := by
  intro code e0 e1
  constructor
  · intro hle
    unfold parse_vkey
    simp only [ge_iff_le, hle, if_true]
  · rfl

/-- Witness for C5 at the concrete scan code 0x64 (low 7 bits 0x64 = 100 ≥ 94,
the table length) and at the numeric-lock code 0x45. -/
theorem C5_key_decoder_total_witness :
    parse_vkey ⟨0x64, true, false⟩ = none ∧
    parse_vkey ⟨0x45, true, false⟩ = none :=
  ⟨(C5_key_decoder_total 0x64 true false).1 (by decide),
   (C5_key_decoder_total 0x64 true false).2⟩

/-! ## Claim C6 — extended-flag override codes -/

/-- C6 counterexample: 0x2A is one of the codes `parse_vkey` resolves
through the extended flag, but decoding it with the extended flag set
yields NO logical key at all (the extended 0x2A is the fake-shift prefix
and is dropped), while without the flag it yields `LeftShift`.  So not
every override code yields two distinct logical keys for the two flag
values. -/
theorem C6_counterexample :
    0x2A ∈ OVERRIDE_CODES ∧
    parse_vkey ⟨0x2A, false, false⟩ = some Key.LeftShift ∧
    parse_vkey ⟨0x2A, true, false⟩ = none ∧
    parse_vkey ⟨0x2A, true, true⟩ = none := by
  refine ⟨by decide, rfl, rfl, rfl⟩

/-- C6 (amended): for every scan code in the extended-flag override set
except 0x2A, decoding with extended-flag true and false yields two
distinct logical keys (right vs left modifiers, numpad vs navigation
cluster, …); for 0x2A, extended-flag false yields `LeftShift` and
extended-flag true yields no key. -/
theorem C6_extended_flag_overrides :
    ∀ c ∈ OVERRIDE_CODES, ∀ e1 : Bool,
      (c ≠ 0x2A →
        (parse_vkey ⟨c, false, e1⟩).isSome ∧
        (parse_vkey ⟨c, true, e1⟩).isSome ∧
        parse_vkey ⟨c, false, e1⟩ ≠ parse_vkey ⟨c, true, e1⟩) ∧
      (c = 0x2A →
        parse_vkey ⟨c, false, e1⟩ = some Key.LeftShift ∧
        parse_vkey ⟨c, true, e1⟩ = none) := by
  intro c hc e1
  fin_cases hc <;> cases e1 <;>
    refine ⟨fun h => ?_, fun h => ?_⟩ <;>
      first
        | decide
        | exact absurd rfl h
        | exact absurd h (by decide)

/-- Witness for C6 at the concrete override code 0x38: left vs right Alt. -/
theorem C6_extended_flag_overrides_witness :
    (parse_vkey ⟨0x38, false, false⟩).isSome ∧
    (parse_vkey ⟨0x38, true, false⟩).isSome ∧
    parse_vkey ⟨0x38, false, false⟩ ≠ parse_vkey ⟨0x38, true, false⟩ :=
  (C6_extended_flag_overrides 0x38 (by decide) false).1 (by decide)

/-! ## Claim C3 — the two-call resize protocol -/

/-- C3: `resize_swap_chain` issues exactly, and in this order: unbind the
bound render target and depth-stencil, release the render-target view,
release the depth-stencil view (the swap chain is never released), flush,
resize the swap-chain back buffers, recreate the render-target view,
recreate the depth-stencil buffer+view sized to match, and set the
full-window viewport.  In particular both view releases precede the
buffer-resize request, and the final state carries views and buffer sized
to the new dimensions. -/
theorem C3_resize_protocol :
    ∀ (g : Graphics) (width height : Nat),
      (resize_swap_chain g width height).2 =
        [DxCall.omSetRenderTargets false,
         DxCall.releaseRenderTargetView,
         DxCall.releaseDepthStencilView,
         DxCall.flush,
         DxCall.resizeBuffers NUM_BUFFERS width height,
         DxCall.createRenderTargetView,
         DxCall.createDepthStencilBufferAndView width height,
         DxCall.rsSetViewports (fullWindowViewport width height)] ∧
      (resize_swap_chain g width height).1.render_target_view
        = some (width, height) ∧
      (resize_swap_chain g width height).1.depth_stencil_view
        = some (width, height) ∧
      (resize_swap_chain g width height).1.depth_stencil_buffer
        = (width, height) ∧
      (resize_swap_chain g width height).1.swap_chain_size
        = (width, height) := by
  intro g width height
  exact ⟨rfl, rfl, rfl, rfl, rfl⟩

/-! ## Claim C9 — end_frame semantics -/

/-- C9: with a frame in progress, `end_render` unbinds the render targets
and presents with sync interval 1, and (when the present succeeds) clears
the frame-in-progress mark; without a matching `begin_render` it is a
no-op: state unchanged, no device call at all — in particular no present —
and it returns success. -/
theorem C9_end_frame_semantics (g : Graphics) (present_ok : Bool) :
    (g.rendering = true →
      end_render g true =
        ({ g with rendering := false },
         [DxCall.omSetRenderTargets false, DxCall.present 1 0], true)) ∧
    (g.rendering = false →
      end_render g present_ok = (g, [], true)) := by
  constructor <;> intro h <;> simp [end_render, h]

/-- Witness for C9: a frame begun on a fresh 800×600 surface is ended with
an unbind and a vsync-locked present, and ending again right after is a
present-free no-op returning success. -/
theorem C9_end_frame_semantics_witness :
    end_render { Graphics.init 800 600 with rendering := true } true =
      ({ Graphics.init 800 600 with rendering := false },
       [DxCall.omSetRenderTargets false, DxCall.present 1 0], true) ∧
    end_render (Graphics.init 800 600) false = (Graphics.init 800 600, [], true) :=
  ⟨(C9_end_frame_semantics { Graphics.init 800 600 with rendering := true } true).1 rfl,
   (C9_end_frame_semantics (Graphics.init 800 600) false).2 rfl⟩

/-! ## Claim C10 — missing-key behavior of the viewport entry points -/

/-- C10: on a key that is not in the viewport registry,
`Window::update_viewport` panics (it unwraps the failed lookup — modelled
as `none`), while `Window::set_active_viewport` silently does nothing (no
state change, no device call) and `Graphics::remove_viewport` leaves the
registry unchanged. -/
theorem C10_missing_key (g : Graphics) (k : Nat) (top_left size : Vector2)
    (h : get_viewport g k = none) :
    window_update_viewport g k top_left size = none ∧
    window_set_active_viewport g k = (g, []) ∧
    remove_viewport g k = g := by
  refine ⟨?_, ?_, ?_⟩
  · simp [window_update_viewport, h]
  · simp [window_set_active_viewport, h]
  · have hall := List.find?_eq_none.mp h
    have hf : g.viewports.filter (fun v => v.key ≠ k) = g.viewports := by
      refine List.filter_eq_self.mpr fun v hv => ?_
      have hvk := hall v hv
      simp at hvk ⊢
      exact hvk
    show { g with viewports := g.viewports.filter (fun v => v.key ≠ k) } = g
    rw [hf]

/-- Witness for C10: a registry holding exactly one viewport with key 0 is
probed at the absent key 5. -/
theorem C10_missing_key_witness :
    window_update_viewport
        (create_viewport (Graphics.init 800 600) ⟨0, 0⟩ ⟨1, 1⟩ none).1
        5 ⟨2, 2⟩ ⟨3, 3⟩ = none ∧
    window_set_active_viewport
        (create_viewport (Graphics.init 800 600) ⟨0, 0⟩ ⟨1, 1⟩ none).1 5 =
      ((create_viewport (Graphics.init 800 600) ⟨0, 0⟩ ⟨1, 1⟩ none).1, []) ∧
    remove_viewport
        (create_viewport (Graphics.init 800 600) ⟨0, 0⟩ ⟨1, 1⟩ none).1 5 =
      (create_viewport (Graphics.init 800 600) ⟨0, 0⟩ ⟨1, 1⟩ none).1 :=
  C10_missing_key _ 5 ⟨2, 2⟩ ⟨3, 3⟩ rfl

/-! ## Claim C2 — idempotent size commit -/

/-- C2: the commit-size procedure (`update_size`) is a no-op when the
reported size equals the stored one, and otherwise stores the new size,
marks `window_size_changed`, resizes the swap chain and then relays out
the viewports, in that order; consequently two consecutive size-changed
notifications carrying the same final size leave the state of the first
commit untouched and produce exactly one swap-chain resize in total. -/
theorem C2_commit_size (s : WindowState) (w h : Nat)
    (hwnd : s.h_wnd_null = false) (hmin : s.minimized = false) :
    (w = s.width ∧ h = s.height → update_size s w h = (s, [])) ∧
    (¬(w = s.width ∧ h = s.height) →
      update_size s w h =
        ({ s with width := w, height := h, window_size_changed := true },
         [GAction.resizeSwapChain w h, GAction.updateViewports w h])) ∧
    wnd_proc (wnd_proc s (.size w h)).1 (.size w h) =
      ((wnd_proc s (.size w h)).1, []) ∧
    ((wnd_proc s (.size w h)).2 ++
        (wnd_proc (wnd_proc s (.size w h)).1 (.size w h)).2).countP
        (fun a => a.isResize) =
      if w = s.width ∧ h = s.height then 0 else 1 := by
  by_cases hsz : w = s.width ∧ h = s.height
  · refine ⟨fun _ => ?_, fun hn => absurd hsz hn, ?_, ?_⟩ <;>
      simp [wnd_proc, update_size, hwnd, hmin, hsz]
  · refine ⟨fun hp => absurd hp hsz, fun _ => ?_, ?_, ?_⟩ <;>
      simp [wnd_proc, update_size, hwnd, hmin, hsz, GAction.isResize]

/-- Witness for C2: a fresh 800×600 window; re-reporting 800×600 is a
no-op, and after committing 1024×768 a second identical notification
changes nothing. -/
theorem C2_commit_size_witness :
    update_size (WindowState.init 800 600) 800 600 =
      (WindowState.init 800 600, []) ∧
    wnd_proc (wnd_proc (WindowState.init 800 600) (.size 1024 768)).1
        (.size 1024 768) =
      ((wnd_proc (WindowState.init 800 600) (.size 1024 768)).1, []) :=
  ⟨(C2_commit_size (WindowState.init 800 600) 800 600 rfl rfl).1 ⟨rfl, rfl⟩,
   (C2_commit_size (WindowState.init 800 600) 1024 768 rfl rfl).2.2.1⟩

/-! ## Claim C1 — gesture batching -/

/-- C1 counterexample: from a fresh 800×600 window, after the gesture-begin
notification the window is in the size gesture, yet an intermediate
size-changing notification (`WM_SIZE` reporting 900×700) immediately
triggers a swap-chain resize — the `WM_SIZE` handler never consults
`in_size_move`, so the gesture does NOT batch size-changing notifications
that reach the handler.  Moreover a gesture that ends at the size it
started from triggers zero resizes at gesture-end, not exactly one. -/
theorem C1_counterexample :
    ((wnd_proc (WindowState.init 800 600) .enterSizeMove).1.in_size_move
        = true) ∧
    (wnd_proc (wnd_proc (WindowState.init 800 600) .enterSizeMove).1
        (.size 900 700)).2 =
      [GAction.resizeSwapChain 900 700, GAction.updateViewports 900 700] ∧
    (wnd_proc (wnd_proc (WindowState.init 800 600) .enterSizeMove).1
        (.exitSizeMove 800 600)).2 = [] :=
  ⟨rfl, rfl, rfl⟩

/-- Dispatching a gesture-neutral message issues no graphics call and
leaves the resize state machine (size, minimized, gesture flag, commit
flag, handle validity) untouched. -/
theorem wnd_proc_neutral (s : WindowState) (m : Msg)
    (hm : m.isGestureNeutral = true) :
    (wnd_proc s m).2 = [] ∧
    (wnd_proc s m).1.width = s.width ∧
    (wnd_proc s m).1.height = s.height ∧
    (wnd_proc s m).1.h_wnd_null = s.h_wnd_null ∧
    (wnd_proc s m).1.minimized = s.minimized ∧
    (wnd_proc s m).1.in_size_move = s.in_size_move ∧
    (wnd_proc s m).1.window_size_changed = s.window_size_changed := by
  cases m with
  | sizeMinimized => simp [Msg.isGestureNeutral] at hm
  | size w h => simp [Msg.isGestureNeutral] at hm
  | enterSizeMove => simp [Msg.isGestureNeutral] at hm
  | exitSizeMove w h => simp [Msg.isGestureNeutral] at hm
  | quit => simp [Msg.isGestureNeutral] at hm
  | windowPosChanged => simp [wnd_proc]
  | other => simp [wnd_proc]
  | rawInput mc e0 e1 pressed =>
      cases hk : parse_vkey ⟨mc, e0, e1⟩ with
      | none => simp [wnd_proc, hk]
      | some k => cases pressed <;> simp [wnd_proc, hk]

/-- Dispatching a list of gesture-neutral messages issues no graphics call
and preserves the resize state machine. -/
theorem dispatch_msgs_neutral (mids : List Msg) :
    ∀ s : WindowState, (∀ m ∈ mids, m.isGestureNeutral = true) →
    (dispatch_msgs s mids).2 = [] ∧
    (dispatch_msgs s mids).1.width = s.width ∧
    (dispatch_msgs s mids).1.height = s.height ∧
    (dispatch_msgs s mids).1.h_wnd_null = s.h_wnd_null ∧
    (dispatch_msgs s mids).1.minimized = s.minimized ∧
    (dispatch_msgs s mids).1.in_size_move = s.in_size_move ∧
    (dispatch_msgs s mids).1.window_size_changed = s.window_size_changed := by
  induction mids with
  | nil => intro s _; simp [dispatch_msgs]
  | cons m rest ih =>
      intro s hall
      obtain ⟨ha1, hw1, hh1, hn1, hm1, hi1, hc1⟩ :=
        wnd_proc_neutral s m (hall m (List.mem_cons_self m rest))
      obtain ⟨ha2, hw2, hh2, hn2, hm2, hi2, hc2⟩ := ih (wnd_proc s m).1
        (fun m' hm' => hall m' (List.mem_cons_of_mem m hm'))
      refine ⟨?_, ?_, ?_, ?_, ?_, ?_, ?_⟩ <;> simp only [dispatch_msgs] <;>
        simp [ha1, hw1, hh1, hn1, hm1, hi1, hc1,
              ha2, hw2, hh2, hn2, hm2, hi2, hc2]

/-- A gesture-end notification reporting a size different from the stored
one commits it: gesture flag cleared, size stored, commit flag set, one
swap-chain resize then one viewport relayout. -/
theorem wnd_proc_exit (s : WindowState) (w h : Nat)
    (hwnd : s.h_wnd_null = false)
    (hsz : ¬(w = s.width ∧ h = s.height)) :
    wnd_proc s (.exitSizeMove w h) =
      ({ s with in_size_move := false, width := w, height := h,
                window_size_changed := true },
       [GAction.resizeSwapChain w h, GAction.updateViewports w h]) := by
  simp [wnd_proc, update_size, hwnd, hsz]

/-- C1 (amended): within a size gesture, gesture-begin and any number of
messages that do not reach the size-commit path trigger zero graphics
calls; gesture-end then triggers exactly one swap-chain resize (followed
by the viewport relayout) sized to the final dimensions — provided the
final size differs from the stored one, since the commit is idempotent.
A size-changing `WM_SIZE` notification that reaches the handler
mid-gesture, however, commits immediately (`C1_counterexample`): the code
relies on such notifications not being generated during the modal drag
(it swallows `WM_WINDOWPOSCHANGED`), not on the gesture flag. -/
theorem C1_gesture_batching (s : WindowState) (mids : List Msg)
    (w h : Nat)
    (hwnd : s.h_wnd_null = false)
    (hmids : ∀ m ∈ mids, m.isGestureNeutral = true)
    (hsz : ¬(w = s.width ∧ h = s.height)) :
    (dispatch_msgs s (Msg.enterSizeMove :: mids)).2 = [] ∧
    (wnd_proc (dispatch_msgs s (Msg.enterSizeMove :: mids)).1
        (.exitSizeMove w h)).2 =
      [GAction.resizeSwapChain w h, GAction.updateViewports w h] ∧
    (wnd_proc (dispatch_msgs s (Msg.enterSizeMove :: mids)).1
        (.exitSizeMove w h)).1.width = w ∧
    (wnd_proc (dispatch_msgs s (Msg.enterSizeMove :: mids)).1
        (.exitSizeMove w h)).1.height = h := by
  have hd : dispatch_msgs s (Msg.enterSizeMove :: mids) =
      dispatch_msgs { s with in_size_move := true } mids := rfl
  obtain ⟨ha, hwidth, hheight, hh, _, _, _⟩ :=
    dispatch_msgs_neutral mids { s with in_size_move := true } hmids
  have hw' :
      (dispatch_msgs { s with in_size_move := true } mids).1.h_wnd_null
        = false := by rw [hh]; exact hwnd
  have hsz' :
      ¬(w = (dispatch_msgs { s with in_size_move := true } mids).1.width ∧
        h = (dispatch_msgs { s with in_size_move := true } mids).1.height) := by
    rw [hwidth, hheight]; exact hsz
  have hexit := wnd_proc_exit
    (dispatch_msgs { s with in_size_move := true } mids).1 w h hw' hsz'
  refine ⟨?_, ?_, ?_, ?_⟩ <;> rw [hd]
  · exact ha
  · rw [hexit]
  · rw [hexit]
  · rw [hexit]

/-- Witness for C1 (amended): a gesture on a fresh 800×600 window with a
window-move and a key-press in between, ending at 1000×800. -/
theorem C1_gesture_batching_witness :
    (dispatch_msgs (WindowState.init 800 600)
        (Msg.enterSizeMove ::
          [Msg.windowPosChanged, Msg.rawInput 30 false false true])).2 = [] ∧
    (wnd_proc (dispatch_msgs (WindowState.init 800 600)
        (Msg.enterSizeMove ::
          [Msg.windowPosChanged, Msg.rawInput 30 false false true])).1
        (.exitSizeMove 1000 800)).2 =
      [GAction.resizeSwapChain 1000 800, GAction.updateViewports 1000 800] :=
  ⟨(C1_gesture_batching (WindowState.init 800 600)
      [Msg.windowPosChanged, Msg.rawInput 30 false false true] 1000 800 rfl
      (by decide) (by decide)).1,
   (C1_gesture_batching (WindowState.init 800 600)
      [Msg.windowPosChanged, Msg.rawInput 30 false false true] 1000 800 rfl
      (by decide) (by decide)).2.1⟩

/-! ## Claim C4 — the render-target triple is not all-or-none -/

/-- C4 counterexample: resizing a fresh 800×600 surface to 1024×768, the
state right after the swap-chain buffer resize (step index 4, the heart of
the mid-resize teardown) has both views absent while `depth_stencil_buffer`
still holds the old 800×600 buffer — the field is not an `Option` in the
Rust struct and is never absent, so the triple is not "all three absent"
during teardown.  Moreover the state right after the render-target view is
recreated (index 5) holds a present render-target view next to an absent
depth-stencil view: a partially valid pair. -/
theorem C4_counterexample :
    (((resize_steps (Graphics.init 800 600) 1024 768).map (·.2)).getD 4
        (Graphics.init 800 600)).render_target_view = none ∧
    (((resize_steps (Graphics.init 800 600) 1024 768).map (·.2)).getD 4
        (Graphics.init 800 600)).depth_stencil_view = none ∧
    (((resize_steps (Graphics.init 800 600) 1024 768).map (·.2)).getD 4
        (Graphics.init 800 600)).depth_stencil_buffer = (800, 600) ∧
    (((resize_steps (Graphics.init 800 600) 1024 768).map (·.2)).getD 5
        (Graphics.init 800 600)).render_target_view = some (1024, 768) ∧
    (((resize_steps (Graphics.init 800 600) 1024 768).map (·.2)).getD 5
        (Graphics.init 800 600)).depth_stencil_view = none :=
  ⟨rfl, rfl, rfl, rfl, rfl⟩

/-- C4 (amended): the full per-step lifecycle of the triple across a
resize, starting from a state where both views are present.  The two
view `Option`s are released and recreated one statement apart, so each
resize passes through exactly one state with only the depth-stencil view
present (after the render-target view release) and one with only the
render-target view present (after its recreation); from the depth-stencil
view release until the render-target view recreation both views are
absent.  The depth-stencil buffer is a non-optional field: it keeps the
old buffer through the whole teardown and the buffer resize, and is
replaced only at the recreation step.  At entry and at completion the
pair is fully valid. -/
theorem C4_triple_lifecycle (g : Graphics) (width height : Nat)
    (a b : Nat × Nat)
    (ha : g.render_target_view = some a)
    (hb : g.depth_stencil_view = some b) :
    (resize_steps g width height).map
        (fun p => (p.2.render_target_view, p.2.depth_stencil_view,
                   p.2.depth_stencil_buffer)) =
      [(some a, some b, g.depth_stencil_buffer),
       (none, some b, g.depth_stencil_buffer),
       (none, none, g.depth_stencil_buffer),
       (none, none, g.depth_stencil_buffer),
       (none, none, g.depth_stencil_buffer),
       (some (width, height), none, g.depth_stencil_buffer),
       (some (width, height), some (width, height), (width, height)),
       (some (width, height), some (width, height), (width, height))] := by
  simp [resize_steps, ha, hb]

/-- Witness for C4 (amended) on a fresh 800×600 surface resized to
1024×768. -/
theorem C4_triple_lifecycle_witness :
    (resize_steps (Graphics.init 800 600) 1024 768).map
        (fun p => (p.2.render_target_view, p.2.depth_stencil_view,
                   p.2.depth_stencil_buffer)) =
      [(some (800, 600), some (800, 600), (800, 600)),
       (none, some (800, 600), (800, 600)),
       (none, none, (800, 600)),
       (none, none, (800, 600)),
       (none, none, (800, 600)),
       (some (1024, 768), none, (800, 600)),
       (some (1024, 768), some (1024, 768), (1024, 768)),
       (some (1024, 768), some (1024, 768), (1024, 768))] :=
  C4_triple_lifecycle (Graphics.init 800 600) 1024 768 (800, 600) (800, 600)
    rfl rfl

/-! ## Claim C7 — viewport keys are monotone and never reused -/

/-- A key at or above a bound dominating every stored key misses on
lookup. -/
theorem find?_key_lt (l : List Viewport) (n k : Nat)
    (hl : ∀ v ∈ l, v.key < n) (hk : n ≤ k) :
    l.find? (fun v => v.key = k) = none := by
  refine List.find?_eq_none.mpr fun v hv => ?_
  have := hl v hv
  simp
  omega

/-- Removing a key at or above a bound dominating every stored key keeps
the whole list. -/
theorem filter_key_lt (l : List Viewport) (n k : Nat)
    (hl : ∀ v ∈ l, v.key < n) (hk : n ≤ k) :
    l.filter (fun v => v.key ≠ k) = l := by
  refine List.filter_eq_self.mpr fun v hv => ?_
  have := hl v hv
  simp
  omega

/-- No registry operation ever decreases the key-allocation counter. -/
theorem apply_op_key_mono (g : Graphics) (op : RegOp) :
    g.new_viewport_key ≤ (apply_op g op).new_viewport_key := by
  cases op with
  | create tl sz u => simp [apply_op, create_viewport]
  | remove k => simp [apply_op, remove_viewport]
  | update k tl sz =>
      cases h : get_viewport g k <;>
        simp [apply_op, window_update_viewport, h]
  | relayout sz => simp [apply_op, update_viewports]
  | setDefault k => simp [apply_op, set_default_viewport]
  | setActive k =>
      cases h : get_viewport g k <;>
        simp [apply_op, window_set_active_viewport, h]

/-- Across any operation sequence the key-allocation counter is
monotone. -/
theorem apply_ops_key_mono (ops : List RegOp) :
    ∀ g : Graphics, g.new_viewport_key ≤ (apply_ops g ops).new_viewport_key := by
  induction ops with
  | nil => intro g; simp [apply_ops]
  | cons op rest ih =>
      intro g
      calc g.new_viewport_key ≤ (apply_op g op).new_viewport_key :=
            apply_op_key_mono g op
        _ ≤ (apply_ops (apply_op g op) rest).new_viewport_key := ih _
        _ = (apply_ops g (op :: rest)).new_viewport_key := rfl

/-- C7: from any state satisfying the registry invariant, creating
viewports A, B, C allocates strictly increasing keys; removing B leaves
A's and C's keys and rects untouched (lookups still return the exact
viewports that were created); looking up B's key afterwards misses; and
whatever the host does later, any viewport created after the removal
receives a key different from B's — keys are never reused. -/
theorem C7_viewport_key_stability (g0 : Graphics) (hinv : RegInv g0)
    (tlA szA tlB szB tlC szC : Vector2)
    (uA uB uC : Option (Vector2 → Vector2 × Vector2)) :
    let kA := g0.new_viewport_key
    let g1 := (create_viewport g0 tlA szA uA).1
    let kB := g1.new_viewport_key
    let g2 := (create_viewport g1 tlB szB uB).1
    let kC := g2.new_viewport_key
    let g3 := (create_viewport g2 tlC szC uC).1
    let g4 := remove_viewport g3 kB
    (create_viewport g0 tlA szA uA).2 = kA ∧
    (create_viewport g1 tlB szB uB).2 = kB ∧
    (create_viewport g2 tlC szC uC).2 = kC ∧
    kA < kB ∧ kB < kC ∧
    get_viewport g4 kA = some (Viewport.new tlA szA uA kA) ∧
    get_viewport g4 kC = some (Viewport.new tlC szC uC kC) ∧
    get_viewport g4 kB = none ∧
    (∀ (ops : List RegOp) (tl sz : Vector2)
        (u : Option (Vector2 → Vector2 × Vector2)),
      (create_viewport (apply_ops g4 ops) tl sz u).2 ≠ kB) := by
  intro kA g1 kB g2 kC g3 g4
  have hkB : kB = kA + 1 := rfl
  have hkC : kC = kA + 2 := rfl
  have hfilter0 : g0.viewports.filter (fun v => v.key ≠ kB) = g0.viewports :=
    filter_key_lt g0.viewports kA kB hinv (by omega)
  have hg4 : g4.viewports =
      g0.viewports ++ [Viewport.new tlA szA uA kA, Viewport.new tlC szC uC kC] := by
    show (((g0.viewports ++ [Viewport.new tlA szA uA kA]) ++
        [Viewport.new tlB szB uB kB]) ++
        [Viewport.new tlC szC uC kC]).filter (fun v => v.key ≠ kB) = _
    rw [List.filter_append, List.filter_append, List.filter_append, hfilter0]
    have h1 : kA ≠ kB := by omega
    have h2 : kC ≠ kB := by omega
    simp [Viewport.new, List.filter, h1, h2]
  have hfind0 : ∀ k, kA ≤ k →
      g0.viewports.find? (fun v => v.key = k) = none :=
    fun k hk => find?_key_lt g0.viewports kA k hinv hk
  refine ⟨rfl, rfl, rfl, by omega, by omega, ?_, ?_, ?_, ?_⟩
  · show g4.viewports.find? (fun v => v.key = kA) = _
    rw [hg4, List.find?_append, hfind0 kA le_rfl]
    simp [Viewport.new, List.find?]
  · show g4.viewports.find? (fun v => v.key = kC) = _
    rw [hg4, List.find?_append, hfind0 kC (by omega)]
    have h1 : ¬(kA = kC) := by omega
    simp [Viewport.new, List.find?, h1]
  · show g4.viewports.find? (fun v => v.key = kB) = none
    rw [hg4, List.find?_append, hfind0 kB (by omega)]
    have h1 : ¬(kA = kB) := by omega
    have h2 : ¬(kC = kB) := by omega
    simp [Viewport.new, List.find?, h1, h2]
  · intro ops tl sz u
    have hmono := apply_ops_key_mono ops g4
    have hg4key : g4.new_viewport_key = kA + 3 := rfl
    show (apply_ops g4 ops).new_viewport_key ≠ kB
    omega

/-- Witness for C7: three viewports created on a fresh surface (keys 0, 1,
2), key 1 removed; its lookup misses and a viewport created after any
further host activity (here: none) gets a key other than 1. -/
theorem C7_viewport_key_stability_witness :
    get_viewport
        (remove_viewport
          (create_viewport
            (create_viewport
              (create_viewport (Graphics.init 800 600)
                ⟨0, 0⟩ ⟨1, 1⟩ none).1
              ⟨2, 2⟩ ⟨3, 3⟩ none).1
            ⟨4, 4⟩ ⟨5, 5⟩ none).1
          1) 1 = none ∧
    (create_viewport
        (apply_ops
          (remove_viewport
            (create_viewport
              (create_viewport
                (create_viewport (Graphics.init 800 600)
                  ⟨0, 0⟩ ⟨1, 1⟩ none).1
                ⟨2, 2⟩ ⟨3, 3⟩ none).1
              ⟨4, 4⟩ ⟨5, 5⟩ none).1
            1) [])
        ⟨6, 6⟩ ⟨7, 7⟩ none).2 ≠ 1 :=
  ⟨(C7_viewport_key_stability (Graphics.init 800 600)
      (fun v hv => absurd hv (List.not_mem_nil v))
      ⟨0, 0⟩ ⟨1, 1⟩ ⟨2, 2⟩ ⟨3, 3⟩ ⟨4, 4⟩ ⟨5, 5⟩ none none none).2.2.2.2.2.2.2.1,
   (C7_viewport_key_stability (Graphics.init 800 600)
      (fun v hv => absurd hv (List.not_mem_nil v))
      ⟨0, 0⟩ ⟨1, 1⟩ ⟨2, 2⟩ ⟨3, 3⟩ ⟨4, 4⟩ ⟨5, 5⟩ none none none).2.2.2.2.2.2.2.2
      [] ⟨6, 6⟩ ⟨7, 7⟩ none⟩

/-! ## Claim C8 — poll_events semantics -/

/-- The message drain reports `false` exactly when a quit message is among
the pending messages (it stops at the first one). -/
theorem poll_loop_quit_iff (msgs : List Msg) :
    ∀ s, ((poll_loop s msgs).2.2 = false ↔ Msg.quit ∈ msgs) := by
  induction msgs with
  | nil => intro s; simp [poll_loop]
  | cons m rest ih => intro s; cases m <;> simp [poll_loop, ih]

/-- A message whose handler cannot reach the size-commit path leaves
`window_size_changed` untouched. -/
theorem wnd_proc_no_commit_flag (s : WindowState) (m : Msg)
    (hm : m.commitsSize = false) :
    (wnd_proc s m).1.window_size_changed = s.window_size_changed := by
  cases m with
  | size w h => simp [Msg.commitsSize] at hm
  | exitSizeMove w h => simp [Msg.commitsSize] at hm
  | sizeMinimized => simp [wnd_proc]
  | enterSizeMove => simp [wnd_proc]
  | windowPosChanged => simp [wnd_proc]
  | quit => simp [wnd_proc]
  | other => simp [wnd_proc]
  | rawInput mc e0 e1 pressed =>
      cases hk : parse_vkey ⟨mc, e0, e1⟩ with
      | none => simp [wnd_proc, hk]
      | some k => cases pressed <;> simp [wnd_proc, hk]

/-- Draining only non-committing messages leaves `window_size_changed`
untouched. -/
theorem poll_loop_no_commit_flag (msgs : List Msg) :
    ∀ s, (∀ m ∈ msgs, m.commitsSize = false) →
      (poll_loop s msgs).1.window_size_changed = s.window_size_changed := by
  induction msgs with
  | nil => intro s _; simp [poll_loop]
  | cons m rest ih =>
      intro s hall
      have hm := hall m (List.mem_cons_self m rest)
      have hrest := fun m' hm' => hall m' (List.mem_cons_of_mem m hm')
      have hw := wnd_proc_no_commit_flag s m hm
      cases m <;>
        first
          | (simp [Msg.commitsSize] at hm <;> exact hm.elim)
          | (simp only [poll_loop] <;> rw [ih _ hrest, hw])

/-- On a quit-free message list the drain dispatches everything and
reports `true`. -/
theorem poll_loop_no_quit (msgs : List Msg) :
    ∀ s, Msg.quit ∉ msgs →
      poll_loop s msgs =
        ((dispatch_msgs s msgs).1, (dispatch_msgs s msgs).2, true) := by
  induction msgs with
  | nil => intro s _; rfl
  | cons m rest ih =>
      intro s hq
      have hm : m ≠ Msg.quit := fun hmq => hq (hmq ▸ List.mem_cons_self m rest)
      have hrest : Msg.quit ∉ rest := fun hr => hq (List.mem_cons_of_mem m hr)
      cases m <;>
        first
          | exact absurd rfl hm
          | simp [poll_loop, dispatch_msgs, ih _ hrest]

/-- Dispatching a concatenation dispatches the two halves in sequence. -/
theorem dispatch_msgs_append (l1 l2 : List Msg) :
    ∀ s, dispatch_msgs s (l1 ++ l2) =
      ((dispatch_msgs (dispatch_msgs s l1).1 l2).1,
       (dispatch_msgs s l1).2 ++ (dispatch_msgs (dispatch_msgs s l1).1 l2).2) := by
  induction l1 with
  | nil => intro s; simp [dispatch_msgs]
  | cons m rest ih => intro s; simp [dispatch_msgs, ih]

/-- Draining neutral messages followed by a size-changed notification for
a genuinely new size commits it: the flag is set at the end of the
cycle. -/
theorem poll_commit_sets_flag (s0 : WindowState) (mids : List Msg)
    (w h : Nat)
    (hwnd : s0.h_wnd_null = false) (hmin : s0.minimized = false)
    (hsz : ¬(w = s0.width ∧ h = s0.height))
    (hmids : ∀ m ∈ mids, m.isGestureNeutral = true) :
    (poll_loop s0 (mids ++ [Msg.size w h])).1.window_size_changed = true := by
  have hq : Msg.quit ∉ mids ++ [Msg.size w h] := by
    intro hq
    rcases List.mem_append.mp hq with hq1 | hq2
    · have := hmids _ hq1; simp [Msg.isGestureNeutral] at this
    · simp at hq2
  rw [poll_loop_no_quit _ s0 hq]
  rw [dispatch_msgs_append mids [Msg.size w h] s0]
  obtain ⟨_, hw1, hh1, hn1, hm1, _, _⟩ := dispatch_msgs_neutral mids s0 hmids
  show (wnd_proc (dispatch_msgs s0 mids).1 (Msg.size w h)).1.window_size_changed
      = true
  have hmin' : (dispatch_msgs s0 mids).1.minimized = false := by
    rw [hm1]; exact hmin
  have hwnd' : (dispatch_msgs s0 mids).1.h_wnd_null = false := by
    rw [hn1]; exact hwnd
  have hsz' : ¬(w = (dispatch_msgs s0 mids).1.width ∧
      h = (dispatch_msgs s0 mids).1.height) := by
    rw [hw1, hh1]; exact hsz
  simp [wnd_proc, update_size, hmin', hwnd', hsz']

/-- C8: `poll_events` resets `window_size_changed` and the input
transition sets at entry, before dispatching anything — the outcome is
independent of whatever per-frame data was left from the previous cycle —
and returns `false` exactly when a quit message is observed.  A cycle
whose messages cannot commit a size leaves the flag `false`, so the flag
set by a committed resize survives for exactly the one cycle that
committed it; a cycle that does commit (here: neutral traffic followed by
a size-changed notification carrying a new size) ends with the flag
`true`. -/
theorem C8_poll_events (s : WindowState) (msgs msgs2 mids : List Msg)
    (w h : Nat) (ps rs : List Key) (wsc : Bool) :
    ((poll_events s msgs).2.2 = false ↔ Msg.quit ∈ msgs) ∧
    poll_events { s with window_size_changed := wsc,
                         input := { s.input with keys_pressed := ps,
                                                 keys_released := rs } }
      msgs = poll_events s msgs ∧
    ((∀ m ∈ msgs2, m.commitsSize = false) →
      (poll_events (poll_events s msgs).1 msgs2).1.window_size_changed
        = false) ∧
    (s.h_wnd_null = false → s.minimized = false →
      ¬(w = s.width ∧ h = s.height) →
      (∀ m ∈ mids, m.isGestureNeutral = true) →
      (poll_events s (mids ++ [Msg.size w h])).1.window_size_changed
        = true) := by
  refine ⟨poll_loop_quit_iff msgs _, rfl, ?_, ?_⟩
  · intro hnc
    show (poll_loop _ msgs2).1.window_size_changed = false
    rw [poll_loop_no_commit_flag msgs2 _ hnc]
  · intro hwnd hmin hsz hmids
    exact poll_commit_sets_flag _ mids w h hwnd hmin hsz hmids

/-- Witness for C8: on a fresh 800×600 window, a cycle seeing a quit
message reports `false`, and a cycle of a window move followed by a
1000×800 size notification ends with the size-changed flag set. -/
theorem C8_poll_events_witness :
    (poll_events (WindowState.init 800 600) [Msg.other, Msg.quit]).2.2
      = false ∧
    (poll_events (WindowState.init 800 600)
        ([Msg.windowPosChanged] ++ [Msg.size 1000 800])).1.window_size_changed
      = true :=
  ⟨(C8_poll_events (WindowState.init 800 600) [Msg.other, Msg.quit] [] []
      1000 800 [] [] false).1.mpr (by decide),
   (C8_poll_events (WindowState.init 800 600) [] [] [Msg.windowPosChanged]
      1000 800 [] [] false).2.2.2 rfl rfl (by decide) (by decide)⟩

end AlexandriaDx11
